import Mathlib

/-!
Shallow embedding of `src/main.py` (LiteView): a tray-controlled screen
mirror.  The embedding models the capture functions
(`capture_screen_monitor`, `capture_screen_monitor_wayland`), the render
tick (`ScreenViewer.update_screen`) with its cursor-marker painting, the
window close handler (`ScreenViewer.closeEvent`), and the cursor-settings
dialog (`CursorSettingsDialog`).  Effects (temp files, subprocess spawns,
screen grabs) are made explicit as a trace; the ambient world (environment
variable, screen list, subprocess and decode outcomes) is passed as a
record of oracles.
-/

namespace LiteView

/-- An RGB color, modelling `QtGui.QColor`. -/
structure Color where
  r : Nat
  g : Nat
  b : Nat
deriving DecidableEq

/-- `QtGui.QColor("red")`, the default cursor color (main.py line 16). -/
def redColor : Color := ⟨255, 0, 0⟩

/-- `QtGui.QColor("yellow")`, used by the "Helles Kreuz" preset (line 365). -/
def yellowColor : Color := ⟨255, 255, 0⟩

/-- The fields of the Python `CursorSettings` object (main.py lines 10-16).
`style` is a Python string, `"circle"` or `"cross"` in practice. -/
structure CursorSettings where
  enabled : Bool
  style : String
  size : Int
  thickness : Int
  color : Color
deriving DecidableEq

/-- The field values `CursorSettings.__init__` assigns (lines 12-16):
enabled, circle, size 5, thickness 0, red. -/
def CursorSettings.defaults : CursorSettings :=
  { enabled := true, style := "circle", size := 5, thickness := 0, color := redColor }

/-- One entry of `QApplication.screens()`: its `name()` and `geometry()`. -/
structure Screen where
  sname : String
  x : Int
  y : Int
  width : Int
  height : Int
deriving DecidableEq

/-- A decoded bitmap (`QtGui.QImage`): pixel dimensions and row-major pixels. -/
structure Image where
  width : Nat
  height : Nat
  pixels : List Color
deriving DecidableEq

/-- The exceptions the capture functions can raise.
`noScreens` is the `RuntimeError("No screens found.")` (lines 31, 64);
`invalidMonitorIndex` is the `ValueError` (lines 33, 66), the spec's
`InvalidRegion`; `subprocessFailed` is the `CalledProcessError` raised by
`subprocess.run(..., check=True)` (line 41); `nullImage` is the
`RuntimeError` raised when the decoded or grabbed image `isNull()`
(lines 44, 72). -/
inductive CaptureError
  | noScreens
  | invalidMonitorIndex (idx : Int) (count : Nat)
  | subprocessFailed
  | nullImage
deriving DecidableEq

/-- Outcome of a capture call: a returned image, or a raised exception. -/
inductive CapResult
  | ok (img : Image)
  | err (e : CaptureError)
deriving DecidableEq

/-- Observable side effects of one capture call: which temp files the call
created, the final filesystem contents, how many subprocesses it spawned
and how many in-process screen grabs (`grabWindow`) it performed. -/
structure CaptureTrace where
  tempCreated : List String
  fsFinal : List String
  subprocessRuns : Nat
  grabs : Nat
deriving DecidableEq

/-- The ambient world a capture call runs in: the value of the
`WAYLAND_DISPLAY` environment variable (`none` when unset), the currently
enumerated screens, the filesystem before the call, the fresh name
`tempfile.NamedTemporaryFile` would pick, whether `grim` exits zero,
what `QtGui.QImage(filename)` decodes to (`none` = null image), and what
`screen.grabWindow(0).toImage()` yields (`none` = null image). -/
structure World where
  env : Option String
  screens : List Screen
  fs0 : List String
  tmpName : String
  grimOk : Bool
  decoded : Option Image
  grabbed : Option Image
deriving DecidableEq

/-- Python truthiness of `os.getenv("WAYLAND_DISPLAY")`: falsy when unset
or the empty string. -/
def envTruthy : Option String → Bool
  | none => false
  | some s => !(s == "")

/-- Trace of a call that touched no file, subprocess or grab. -/
def emptyTrace (fs : List String) : CaptureTrace :=
  { tempCreated := [], fsFinal := fs, subprocessRuns := 0, grabs := 0 }

/-- Embedding of `capture_screen_monitor_wayland` (main.py lines 22-48):
validate the screen list and index, create one named temp file, run
`grim -o <screen> <file>` (raising on non-zero exit), decode the file
(raising on a null image), and in a `finally` block remove the temp file
if it still exists. -/
def capture_screen_monitor_wayland (w : World) (monitor_index : Int) :
    CapResult × CaptureTrace :=
  if w.screens.length = 0 then
    (.err .noScreens, emptyTrace w.fs0)
  else if monitor_index < 0 ∨ (w.screens.length : Int) ≤ monitor_index then
    (.err (.invalidMonitorIndex monitor_index w.screens.length), emptyTrace w.fs0)
  else
    let fs1 := w.fs0 ++ [w.tmpName]
    let res : CapResult :=
      if w.grimOk then
        match w.decoded with
        | none => .err .nullImage
        | some img => .ok img
      else .err .subprocessFailed
    (res, { tempCreated := [w.tmpName],
            fsFinal := fs1.filter (fun f => f != w.tmpName),
            subprocessRuns := 1, grabs := 0 })

/-- Embedding of the X11/Windows branch of `capture_screen_monitor`
(main.py lines 59-73): validate the screen list and index, then grab the
screen in-process, raising on a null image. -/
def capture_screen_monitor_native (w : World) (monitor_index : Int) :
    CapResult × CaptureTrace :=
  if w.screens.length = 0 then
    (.err .noScreens, emptyTrace w.fs0)
  else if monitor_index < 0 ∨ (w.screens.length : Int) ≤ monitor_index then
    (.err (.invalidMonitorIndex monitor_index w.screens.length), emptyTrace w.fs0)
  else
    match w.grabbed with
    | none => (.err .nullImage, { emptyTrace w.fs0 with grabs := 1 })
    | some img => (.ok img, { emptyTrace w.fs0 with grabs := 1 })

/-- Embedding of `capture_screen_monitor` (main.py lines 51-73): on every
call it reads `os.getenv("WAYLAND_DISPLAY")` and branches to the grim
path when truthy, the in-process grab otherwise. -/
def capture_screen_monitor (w : World) (monitor_index : Int) :
    CapResult × CaptureTrace :=
  if envTruthy w.env then
    capture_screen_monitor_wayland w monitor_index
  else
    capture_screen_monitor_native w monitor_index

/-- The two capture strategies of the spec. -/
inductive Strategy
  | wayland
  | native
deriving DecidableEq

/-- The strategy the `if os.getenv("WAYLAND_DISPLAY")` test (line 56)
selects for a given environment value. -/
def chosenStrategy (env : Option String) : Strategy :=
  if envTruthy env then .wayland else .native

/-- An integer rectangle, modelling `screen.geometry()`. -/
structure Rect where
  x : Int
  y : Int
  width : Int
  height : Int
deriving DecidableEq

/-- One painter command issued by `update_screen`'s cursor-drawing code:
`drawEllipse(x, y, w, h)` or `drawLine(x1, y1, x2, y2)`, each with the
pen color and thickness in force (brush = pen color, so the ellipse is
filled). -/
inductive DrawCmd
  | ellipse (x y w h : Int) (color : Color) (thickness : Int)
  | line (x1 y1 x2 y2 : Int) (color : Color) (thickness : Int)
deriving DecidableEq

/-- The painter commands `ScreenViewer.update_screen` issues for the
cursor marker (main.py lines 142-177): nothing when disabled; otherwise
translate the global mouse position into monitor-local coordinates and,
when those lie inside `[0, width] x [0, height]`, draw a circle of radius
`size` (as `drawEllipse` of its bounding square) for style `"circle"`, or
a horizontal plus a vertical segment of half-length `size` for `"cross"`. -/
def drawCursor (cs : CursorSettings) (mousePos : Int × Int) (geom : Rect) :
    List DrawCmd :=
  if cs.enabled then
    let mouse_x := mousePos.1 - geom.x
    let mouse_y := mousePos.2 - geom.y
    if 0 ≤ mouse_x ∧ mouse_x ≤ geom.width ∧ 0 ≤ mouse_y ∧ mouse_y ≤ geom.height then
      if cs.style = "circle" then
        [.ellipse (mouse_x - cs.size) (mouse_y - cs.size)
          (2 * cs.size) (2 * cs.size) cs.color cs.thickness]
      else if cs.style = "cross" then
        [.line (mouse_x - cs.size) mouse_y (mouse_x + cs.size) mouse_y
          cs.color cs.thickness,
         .line mouse_x (mouse_y - cs.size) mouse_x (mouse_y + cs.size)
          cs.color cs.thickness]
      else []
    else []
  else []

/-- Apply a list of painter commands to an image, given a rasterizer for
a single command (Qt's rendering, left abstract). -/
def applyCmds (raster : DrawCmd → Image → Image) : Image → List DrawCmd → Image
  | img, [] => img
  | img, c :: rest => applyCmds raster (raster c img) rest

/-- Display state of a `ScreenViewer`: the cached `current_pixmap` and the
pixmap the `image_label` shows. -/
structure ViewerDisplay where
  current_pixmap : Option Image
  label_pixmap : Option Image
deriving DecidableEq

/-- How one `update_screen` tick ended: display updated, the capture
exception caught and printed, or the empty-pixmap message printed.  In
every case the handler returns normally. -/
inductive TickOutcome
  | updated
  | capturePrinted
  | pixmapPrinted
deriving DecidableEq

/-- `QPixmap.fromImage` yields a null pixmap exactly for an empty image. -/
def pixmapNull (img : Image) : Bool :=
  img.width = 0 || img.height = 0

/-- Embedding of `ScreenViewer.update_screen` (main.py lines 136-192).
`raster` abstracts Qt's rasterizer, `scale` the `pixmap.scaled(...)` call
for the label, `captured` the outcome of `capture_screen_monitor`,
`geom` the monitor's geometry read this tick.  The whole body is inside
`try/except`: a capture exception is printed and the tick returns with
the display state untouched. -/
def ScreenViewer.update_screen (raster : DrawCmd → Image → Image)
    (scale : Image → Image) (st : ViewerDisplay) (cs : CursorSettings)
    (captured : CapResult) (mousePos : Int × Int) (geom : Rect) :
    ViewerDisplay × TickOutcome :=
  match captured with
  | .err _ => (st, .capturePrinted)
  | .ok img =>
      let painted := applyCmds raster img (drawCursor cs mousePos geom)
      if pixmapNull painted then
        (st, .pixmapPrinted)
      else
        ({ current_pixmap := some painted, label_pixmap := some (scale painted) },
         .updated)

/-- State of a `ScreenViewer` window that the close handler can touch:
its monitor, visibility, whether its refresh `QTimer` is armed, and its
display state. -/
structure ViewerWindow where
  monitor_index : Int
  visible : Bool
  timerActive : Bool
  display : ViewerDisplay
deriving DecidableEq

/-- A `QCloseEvent`: Qt delivers it accepted; a handler may `ignore()` it. -/
structure CloseEvent where
  accepted : Bool
deriving DecidableEq

/-- Embedding of `ScreenViewer.closeEvent` (main.py lines 214-217):
`event.ignore()` then `self.hide()`; nothing else is touched. -/
def ScreenViewer.closeEvent (v : ViewerWindow) (e : CloseEvent) :
    ViewerWindow × CloseEvent :=
  ({ v with visible := false }, { e with accepted := false })

/-- Qt's close protocol: deliver an accepted close event to the handler;
if the handler leaves it accepted the window is destroyed (`none`),
otherwise the window survives with whatever state the handler left. -/
def deliverClose (v : ViewerWindow) : Option ViewerWindow :=
  let r := ScreenViewer.closeEvent v { accepted := true }
  if r.2.accepted then none else some r.1

/-- `widget.show()`: make the same window visible again. -/
def showWindow (v : ViewerWindow) : ViewerWindow :=
  { v with visible := true }

/-- The three entries of the `predefined_combo` (main.py lines 320-322). -/
inductive Preset
  | standard
  | deaktiviert
  | hellesKreuz
deriving DecidableEq

/-- The widget state of a `CursorSettingsDialog`: checkbox, style combo
(`styleKreis` = `currentText() == "Kreis"`), the two spin boxes and the
preset combo.  The color has no widget state: picking a color writes the
shared settings immediately. -/
structure DialogWidgets where
  enabledBox : Bool
  styleKreis : Bool
  sizeSpin : Int
  thicknessSpin : Int
  preset : Preset
deriving DecidableEq

/-- Result of `CursorSettingsDialog.accept`: the field contents of the
shared `CursorSettings` object (the one the render loop reads) after the
call, and whether the dialog rebound its own `self.cursor_settings`
attribute to a fresh object (which leaves the shared object untouched). -/
structure AcceptResult where
  shared : CursorSettings
  dialogRefFresh : Bool
deriving DecidableEq

/-- Embedding of `CursorSettingsDialog.accept` (main.py lines 348-368):
first copy every widget value into the shared settings object, then apply
the selected preset.  `Deaktiviert` only forces `enabled = False`;
`Helles Kreuz` overwrites all five fields in place; `Standard` executes
`self.cursor_settings = CursorSettings()`, which rebinds the dialog's
attribute to a fresh object and mutates nothing shared. -/
def CursorSettingsDialog.accept (shared : CursorSettings) (dw : DialogWidgets) :
    AcceptResult :=
  let s1 : CursorSettings :=
    { shared with
      enabled := dw.enabledBox,
      style := if dw.styleKreis then "circle" else "cross",
      size := dw.sizeSpin,
      thickness := dw.thicknessSpin }
  match dw.preset with
  | .deaktiviert => { shared := { s1 with enabled := false }, dialogRefFresh := false }
  | .hellesKreuz =>
      let s2 : CursorSettings :=
        { enabled := true, style := "cross", size := 10, thickness := 2,
          color := yellowColor }
      { shared := s2, dialogRefFresh := false }
  | .standard => { shared := s1, dialogRefFresh := true }

/-- The live state while a `CursorSettingsDialog` is open: the shared
settings object and the dialog's widgets. -/
structure DialogState where
  shared : CursorSettings
  widgets : DialogWidgets
deriving DecidableEq

/-- User interactions available while the dialog is open: editing each
widget, and the color-picker button (`select_color`, main.py lines
334-340), whose chosen color is `none` when the color dialog is cancelled
or the color invalid. -/
inductive DialogEvent
  | setEnabledBox (b : Bool)
  | setStyleKreis (b : Bool)
  | setSizeSpin (n : Int)
  | setThicknessSpin (n : Int)
  | setPreset (p : Preset)
  | pickColor (c : Option Color)
deriving DecidableEq

/-- One dialog interaction.  Widget edits change only widget state (the
spin boxes clamp to their ranges 1-10000 and 0-20); `pickColor` with a
valid color assigns `self.cursor_settings.color` at once. -/
def dialogStep (st : DialogState) : DialogEvent → DialogState
  | .setEnabledBox b => { st with widgets := { st.widgets with enabledBox := b } }
  | .setStyleKreis b => { st with widgets := { st.widgets with styleKreis := b } }
  | .setSizeSpin n =>
      { st with widgets := { st.widgets with sizeSpin := max 1 (min 10000 n) } }
  | .setThicknessSpin n =>
      { st with widgets := { st.widgets with thicknessSpin := max 0 (min 20 n) } }
  | .setPreset p => { st with widgets := { st.widgets with preset := p } }
  | .pickColor c =>
      match c with
      | some col => { st with shared := { st.shared with color := col } }
      | none => st

/-- `QDialog.reject` (the Cancel button): the dialog closes and no code of
`CursorSettingsDialog` touches the settings; the shared object keeps its
current contents. -/
def dialogReject (st : DialogState) : CursorSettings :=
  st.shared

/-! ### Concrete fixtures used by witnesses and counterexamples -/

/-- A single-monitor world with no Wayland signal. -/
def oneScreenWorld : World :=
  { env := none,
    screens := [⟨"DP-1", 0, 0, 1920, 1080⟩],
    fs0 := ["/home/user/doc.txt"],
    tmpName := "/tmp/liteview.png",
    grimOk := true,
    decoded := some ⟨1920, 1080, []⟩,
    grabbed := some ⟨1920, 1080, []⟩ }

/-- The same world after `WAYLAND_DISPLAY` became set between two calls. -/
def oneScreenWorldWayland : World :=
  { oneScreenWorld with env := some "wayland-0" }

/-- Dialog widgets left at non-default values with the "Standard" preset
selected. -/
def c3Widgets : DialogWidgets :=
  { enabledBox := false, styleKreis := false, sizeSpin := 77,
    thicknessSpin := 9, preset := .standard }

/-- A tiny two-pixel image. -/
def tinyImage : Image := ⟨2, 1, [redColor, yellowColor]⟩

/-- Default cursor settings with the marker disabled. -/
def disabledSettings : CursorSettings :=
  { CursorSettings.defaults with enabled := false }

/-! ### Claim theorems -/

/-- Claim C1: for every monitor index outside `[0, count)` against the
currently enumerated (non-empty) display list, both
`capture_screen_monitor` and `capture_screen_monitor_wayland` raise the
`ValueError` (`invalidMonitorIndex`) and never attempt the underlying
capture: no subprocess is spawned, no grab is performed, no temp file is
created and the filesystem is untouched (the result trace is
`emptyTrace`). -/
theorem capture_invalid_index_rejected (w : World) (idx : Int)
    (hscr : ¬ w.screens.length = 0)
    (hout : idx < 0 ∨ (w.screens.length : Int) ≤ idx) :
    capture_screen_monitor w idx =
      (.err (.invalidMonitorIndex idx w.screens.length), emptyTrace w.fs0) ∧
    capture_screen_monitor_wayland w idx =
      (.err (.invalidMonitorIndex idx w.screens.length), emptyTrace w.fs0) := by
  have hway : capture_screen_monitor_wayland w idx =
      (.err (.invalidMonitorIndex idx w.screens.length), emptyTrace w.fs0) := by
    unfold capture_screen_monitor_wayland
    rw [if_neg hscr, if_pos hout]
  have hnat : capture_screen_monitor_native w idx =
      (.err (.invalidMonitorIndex idx w.screens.length), emptyTrace w.fs0) := by
    unfold capture_screen_monitor_native
    rw [if_neg hscr, if_pos hout]
  refine ⟨?_, hway⟩
  unfold capture_screen_monitor
  by_cases he : envTruthy w.env = true
  · rw [if_pos he]; exact hway
  · rw [if_neg he]; exact hnat

/-- Witness for C1: one screen, index 5. -/
theorem capture_invalid_index_rejected_witness :
    capture_screen_monitor oneScreenWorld 5 =
      (.err (.invalidMonitorIndex 5 1), emptyTrace ["/home/user/doc.txt"]) :=
  (capture_invalid_index_rejected oneScreenWorld 5 (by decide) (by decide)).1

/-- Claim C2, counterexample: the strategy branch is evaluated on every
call of `capture_screen_monitor` against the call-time environment, not
once at process start.  Two calls in the same process state, differing
only in the current value of `WAYLAND_DISPLAY`, take different
strategies: the first performs an in-process grab and spawns no
subprocess, the second spawns the `grim` subprocess. -/
theorem strategy_rebranched_per_call :
    oneScreenWorldWayland = { oneScreenWorld with env := some "wayland-0" } ∧
    chosenStrategy oneScreenWorld.env = .native ∧
    chosenStrategy oneScreenWorldWayland.env = .wayland ∧
    (capture_screen_monitor oneScreenWorld 0).2.subprocessRuns = 0 ∧
    (capture_screen_monitor oneScreenWorld 0).2.grabs = 1 ∧
    (capture_screen_monitor oneScreenWorldWayland 0).2.subprocessRuns = 1 ∧
    (capture_screen_monitor oneScreenWorldWayland 0).2.grabs = 0 := by
  refine ⟨rfl, rfl, rfl, rfl, rfl, rfl, rfl⟩

/-- Claim C2 as amended: the capture strategy is selected on each capture
call by inspecting `WAYLAND_DISPLAY` at call time; a call that sees the
signal absent (or empty, hence falsy) uses platform-native capture and
spawns no subprocess and creates no temp file, while a call that sees it
truthy uses the external-tool path. -/
theorem strategy_selected_per_call (w : World) (idx : Int) :
    (envTruthy w.env = false →
      capture_screen_monitor w idx = capture_screen_monitor_native w idx ∧
      (capture_screen_monitor w idx).2.subprocessRuns = 0 ∧
      (capture_screen_monitor w idx).2.tempCreated = []) ∧
    (envTruthy w.env = true →
      capture_screen_monitor w idx = capture_screen_monitor_wayland w idx) ∧
    (w.env = none → chosenStrategy w.env = .native) := by
  refine ⟨fun h => ?_, fun h => ?_, fun h => ?_⟩
  · have he : capture_screen_monitor w idx = capture_screen_monitor_native w idx := by
      unfold capture_screen_monitor
      rw [if_neg (by rw [h]; exact Bool.false_ne_true)]
    have hclean : (capture_screen_monitor_native w idx).2.subprocessRuns = 0 ∧
        (capture_screen_monitor_native w idx).2.tempCreated = [] := by
      unfold capture_screen_monitor_native
      split
      · exact ⟨rfl, rfl⟩
      · split
        · exact ⟨rfl, rfl⟩
        · split <;> exact ⟨rfl, rfl⟩
    exact ⟨he, by rw [he]; exact hclean.1, by rw [he]; exact hclean.2⟩
  · unfold capture_screen_monitor
    rw [if_pos h]
  · rw [h]; rfl

/-- Witness for the amended C2: with `WAYLAND_DISPLAY` unset the call is
the native path. -/
theorem strategy_selected_per_call_witness :
    capture_screen_monitor oneScreenWorld 0 =
      capture_screen_monitor_native oneScreenWorld 0 :=
  ((strategy_selected_per_call oneScreenWorld 0).1 rfl).1

/-- Claim C3 (code bug): accepting the dialog with the "Standard" preset
does not restore the default field values on the shared settings object.
`self.cursor_settings = CursorSettings()` only rebinds the dialog's own
attribute, so the shared object keeps the widget-derived values
(here enabled=false, style=cross, size=77, thickness=9), which differ
from the defaults. -/
theorem standard_preset_leaves_widget_values :
    (CursorSettingsDialog.accept CursorSettings.defaults c3Widgets).shared ≠
      CursorSettings.defaults ∧
    (CursorSettingsDialog.accept CursorSettings.defaults c3Widgets).shared =
      { enabled := false, style := "cross", size := 77, thickness := 9,
        color := redColor } ∧
    (CursorSettingsDialog.accept CursorSettings.defaults c3Widgets).dialogRefFresh
      = true := by
  refine ⟨?_, rfl, rfl⟩
  intro h
  have := congrArg CursorSettings.size h
  simp [CursorSettingsDialog.accept, CursorSettings.defaults, c3Widgets] at this

/-- Claim C4: on every exit path of `capture_screen_monitor_wayland` past
validation — normal return, `grim` failure, or decode failure, i.e. for
every value of the `grimOk`/`decoded` oracles — exactly one temp file is
created, it is absent from the final filesystem, and (when its name was
fresh) the filesystem is exactly restored. -/
theorem wayland_temp_file_removed (w : World) (idx : Int)
    (hscr : ¬ w.screens.length = 0) (h0 : 0 ≤ idx)
    (hlt : idx < (w.screens.length : Int)) :
    (capture_screen_monitor_wayland w idx).2.tempCreated = [w.tmpName] ∧
    w.tmpName ∉ (capture_screen_monitor_wayland w idx).2.fsFinal ∧
    (w.tmpName ∉ w.fs0 →
      (capture_screen_monitor_wayland w idx).2.fsFinal = w.fs0) := by
  have hcond : ¬(idx < 0 ∨ (w.screens.length : Int) ≤ idx) := by omega
  unfold capture_screen_monitor_wayland
  rw [if_neg hscr, if_neg hcond]
  refine ⟨rfl, ?_, ?_⟩
  · show w.tmpName ∉ (w.fs0 ++ [w.tmpName]).filter (fun f => f != w.tmpName)
    intro hmem
    have := List.mem_filter.mp hmem
    simp at this
  · intro hfresh
    show (w.fs0 ++ [w.tmpName]).filter (fun f => f != w.tmpName) = w.fs0
    rw [List.filter_append]
    have h2 : List.filter (fun f => f != w.tmpName) [w.tmpName] = [] := by simp
    rw [h2, List.append_nil]
    apply List.filter_eq_self.mpr
    intro a ha
    simp only [bne_iff_ne, ne_eq]
    intro heq
    exact hfresh (heq ▸ ha)

/-- Witness for C4: one screen, valid index 0, fresh temp name. -/
theorem wayland_temp_file_removed_witness :
    (capture_screen_monitor_wayland oneScreenWorld 0).2.fsFinal =
      ["/home/user/doc.txt"] :=
  (wayland_temp_file_removed oneScreenWorld 0 (by decide) (by decide)
    (by decide)).2.2 (by decide)

/-- Claim C5: a tick on which the frame source raises any exception
returns normally with the error printed, leaving the display state —
`current_pixmap` and the label's pixmap — exactly as it was. -/
theorem tick_error_retains_display (raster : DrawCmd → Image → Image)
    (scale : Image → Image) (st : ViewerDisplay) (cs : CursorSettings)
    (e : CaptureError) (mousePos : Int × Int) (geom : Rect) :
    ScreenViewer.update_screen raster scale st cs (.err e) mousePos geom =
      (st, .capturePrinted) := rfl

/-- Claim C6: with the marker enabled, a pointer whose monitor-local
coordinates fall outside `[0,w]×[0,h]` produces no painter command;
inside, exactly one marker is drawn centered on the local point: for
style `"circle"` a single filled ellipse whose bounding square
`(mx - size, my - size, 2*size, 2*size)` is the circle of radius `size`
about `(mx, my)`, for style `"cross"` exactly the horizontal and the
vertical segment of half-length `size` through `(mx, my)`, both in the
settings color and thickness. -/
theorem cursor_marker_geometry (cs : CursorSettings) (mousePos : Int × Int)
    (geom : Rect) (hen : cs.enabled = true) :
    (¬(0 ≤ mousePos.1 - geom.x ∧ mousePos.1 - geom.x ≤ geom.width ∧
        0 ≤ mousePos.2 - geom.y ∧ mousePos.2 - geom.y ≤ geom.height) →
      drawCursor cs mousePos geom = []) ∧
    ((0 ≤ mousePos.1 - geom.x ∧ mousePos.1 - geom.x ≤ geom.width ∧
        0 ≤ mousePos.2 - geom.y ∧ mousePos.2 - geom.y ≤ geom.height) →
      (cs.style = "circle" → drawCursor cs mousePos geom =
        [.ellipse (mousePos.1 - geom.x - cs.size) (mousePos.2 - geom.y - cs.size)
          (2 * cs.size) (2 * cs.size) cs.color cs.thickness]) ∧
      (cs.style = "cross" → drawCursor cs mousePos geom =
        [.line (mousePos.1 - geom.x - cs.size) (mousePos.2 - geom.y)
          (mousePos.1 - geom.x + cs.size) (mousePos.2 - geom.y)
          cs.color cs.thickness,
         .line (mousePos.1 - geom.x) (mousePos.2 - geom.y - cs.size)
          (mousePos.1 - geom.x) (mousePos.2 - geom.y + cs.size)
          cs.color cs.thickness])) := by
  constructor
  · intro hout
    unfold drawCursor
    rw [if_pos hen, if_neg hout]
  · intro hin
    constructor
    · intro hsty
      unfold drawCursor
      rw [if_pos hen, if_pos hin, if_pos hsty]
    · intro hsty
      have hne : ¬ cs.style = "circle" := by rw [hsty]; decide
      unfold drawCursor
      rw [if_pos hen, if_pos hin, if_neg hne, if_pos hsty]

/-- Witness for C6: defaults (circle, size 5) on a 100×100 monitor at
(2,3), pointer at global (12,8), local (10,5): one ellipse command. -/
theorem cursor_marker_geometry_witness :
    drawCursor CursorSettings.defaults (12, 8) ⟨2, 3, 100, 100⟩ =
      [DrawCmd.ellipse 5 0 10 10 redColor 0] :=
  ((cursor_marker_geometry CursorSettings.defaults (12, 8) ⟨2, 3, 100, 100⟩
    rfl).2 (by decide)).1 rfl

/-- Claim C7: with `enabled = false` the annotator issues no painter
command, so the displayed frame is pixel-identical to the captured frame,
for any rasterizer, frame, pointer position and geometry. -/
theorem annotator_noop_when_disabled (raster : DrawCmd → Image → Image)
    (img : Image) (cs : CursorSettings) (mousePos : Int × Int) (geom : Rect)
    (hdis : cs.enabled = false) :
    applyCmds raster img (drawCursor cs mousePos geom) = img := by
  unfold drawCursor
  rw [hdis]
  rfl

/-- Witness for C7: a concrete two-pixel frame survives a disabled
annotator unchanged. -/
theorem annotator_noop_when_disabled_witness :
    applyCmds (fun _ i => i) tinyImage
      (drawCursor disabledSettings (0, 0) ⟨0, 0, 10, 10⟩) = tinyImage :=
  annotator_noop_when_disabled (fun _ i => i) tinyImage disabledSettings
    (0, 0) ⟨0, 0, 10, 10⟩ rfl

/-- Claim C8: accepting with the "Deaktiviert" preset always leaves the
shared `CursorSettings` object with `enabled = false`, for every prior
settings state and every widget state (checkbox included); the dialog
does not rebind its reference, so this is the object the render loop
reads. -/
theorem disabled_preset_forces_enabled_false (shared : CursorSettings)
    (dw : DialogWidgets) (hp : dw.preset = .deaktiviert) :
    (CursorSettingsDialog.accept shared dw).shared.enabled = false ∧
    (CursorSettingsDialog.accept shared dw).dialogRefFresh = false := by
  unfold CursorSettingsDialog.accept
  rw [hp]
  exact ⟨rfl, rfl⟩

/-- Witness for C8: prior settings enabled, checkbox checked, preset
"Deaktiviert" — shared settings end disabled. -/
theorem disabled_preset_forces_enabled_false_witness :
    (CursorSettingsDialog.accept CursorSettings.defaults
      { enabledBox := true, styleKreis := true, sizeSpin := 5,
        thicknessSpin := 0, preset := .deaktiviert }).shared.enabled = false :=
  (disabled_preset_forces_enabled_false CursorSettings.defaults
    { enabledBox := true, styleKreis := true, sizeSpin := 5,
      thicknessSpin := 0, preset := .deaktiviert } rfl).1

/-- Claim C9: delivering a (Qt-accepted) close event to a `ScreenViewer`
never destroys it: the handler ignores the event, so the window survives
(`deliverClose` returns `some`), merely hidden, with its timer armed
exactly as before — the render loop keeps Running — and `show()` on that
same surviving window restores it to the pre-close state, visible again,
without re-creating it. -/
theorem close_hides_and_keeps_timer (v : ViewerWindow) :
    deliverClose v = some { v with visible := false } ∧
    (deliverClose v).map ViewerWindow.timerActive = some v.timerActive ∧
    (deliverClose v).map showWindow = some { v with visible := true } :=
  ⟨rfl, rfl, rfl⟩

/-- Helper for C10: no interaction available while the dialog is open
changes the enabled, style, size or thickness fields of the shared
settings object. -/
theorem dialogSteps_preserve_fields (evs : List DialogEvent) (st : DialogState) :
    ((evs.foldl dialogStep st).shared.enabled = st.shared.enabled ∧
     (evs.foldl dialogStep st).shared.style = st.shared.style) ∧
    ((evs.foldl dialogStep st).shared.size = st.shared.size ∧
     (evs.foldl dialogStep st).shared.thickness = st.shared.thickness) := by
  induction evs generalizing st with
  | nil => exact ⟨⟨rfl, rfl⟩, ⟨rfl, rfl⟩⟩
  | cons e rest ih =>
      rw [List.foldl_cons]
      have h1 := ih (dialogStep st e)
      have h2 : ((dialogStep st e).shared.enabled = st.shared.enabled ∧
          (dialogStep st e).shared.style = st.shared.style) ∧
          ((dialogStep st e).shared.size = st.shared.size ∧
          (dialogStep st e).shared.thickness = st.shared.thickness) := by
        cases e with
        | setEnabledBox b => exact ⟨⟨rfl, rfl⟩, ⟨rfl, rfl⟩⟩
        | setStyleKreis b => exact ⟨⟨rfl, rfl⟩, ⟨rfl, rfl⟩⟩
        | setSizeSpin n => exact ⟨⟨rfl, rfl⟩, ⟨rfl, rfl⟩⟩
        | setThicknessSpin n => exact ⟨⟨rfl, rfl⟩, ⟨rfl, rfl⟩⟩
        | setPreset p => exact ⟨⟨rfl, rfl⟩, ⟨rfl, rfl⟩⟩
        | pickColor c =>
            cases c with
            | none => exact ⟨⟨rfl, rfl⟩, ⟨rfl, rfl⟩⟩
            | some col => exact ⟨⟨rfl, rfl⟩, ⟨rfl, rfl⟩⟩
      exact ⟨⟨h1.1.1.trans h2.1.1, h1.1.2.trans h2.1.2⟩,
             ⟨h1.2.1.trans h2.2.1, h1.2.2.trans h2.2.2⟩⟩

/-- Claim C10: cancelling the dialog after any sequence of widget edits
and color-picker uses leaves the enabled, style, size and thickness
fields of the shared settings exactly as at dialog open; only the color
field can have been mutated (by `select_color`, which writes it
immediately). -/
theorem reject_preserves_noncolor_fields (s0 : CursorSettings)
    (w0 : DialogWidgets) (evs : List DialogEvent) :
    (dialogReject (evs.foldl dialogStep { shared := s0, widgets := w0 })).enabled
      = s0.enabled ∧
    (dialogReject (evs.foldl dialogStep { shared := s0, widgets := w0 })).style
      = s0.style ∧
    (dialogReject (evs.foldl dialogStep { shared := s0, widgets := w0 })).size
      = s0.size ∧
    (dialogReject (evs.foldl dialogStep { shared := s0, widgets := w0 })).thickness
      = s0.thickness := by
  have h := dialogSteps_preserve_fields evs { shared := s0, widgets := w0 }
  exact ⟨h.1.1, h.1.2, h.2.1, h.2.2⟩

end LiteView
